import Mathlib

/-!
Verification development for the Sierra libfunc signature-specialization and
CASM-emission core (storage read/write syscalls, contract-address constant,
cross-contract call), shallowly embedded from the Rust sources
`crates/sierra/src/extensions/modules/starknet/storage.rs` and
`crates/sierra_to_casm/src/invocations/starknet/interoperability.rs`.
-/

namespace Sierra

/-- Identifier of a generic type (e.g. "System", "felt"). -/
abbrev GenericTypeId := String

/-- Identifier of a concrete (specialized) type, as handed out by the
signature specialization context. -/
abbrev ConcreteTypeId := Nat

/-- A generic argument of a libfunc or type (only the shapes the embedded
code can meet). -/
inductive GenericArg where
  | value (v : Int)
  | type (t : ConcreteTypeId)
deriving DecidableEq, Repr

/-- Errors raised during signature specialization. -/
inductive SpecializationError where
  | UnsupportedId
  | WrongNumberOfGenericArgs
  | UnsupportedGenericArg
deriving DecidableEq, Repr

/-- How an output variable's location relates to the invocation's inputs,
for `Deferred` outputs. -/
inductive DeferredOutputKind where
  | Const
  | AddConst (param_idx : Nat)
  | Generic
deriving DecidableEq, Repr

/-- How the compiler must later synthesize an output's physical location. -/
inductive OutputVarReferenceInfo where
  | Deferred (kind : DeferredOutputKind)
  | NewTempVar (idx : Option Nat)
  | SameAsParam (param_idx : Nat)
deriving DecidableEq, Repr

/-- Information about a libfunc output variable. -/
structure OutputVarInfo where
  ty : ConcreteTypeId
  ref_info : OutputVarReferenceInfo
deriving DecidableEq, Repr

/-- Classification of the ap-change of a libfunc branch. -/
inductive SierraApChange where
  | Known (new_vars_only : Bool)
  | Unknown
deriving DecidableEq, Repr

/-- Signature of one libfunc parameter: its type and which physical-location
shapes are legal for an argument bound to it. -/
structure ParamSignature where
  ty : ConcreteTypeId
  allow_deferred : Bool
  allow_add_const : Bool
  allow_const : Bool
deriving DecidableEq, Repr

/-- Modelled from the spec: `ParamSignature::new` builds an unrestricted
parameter ("plain value, any shape" per the spec), so every shape flag is
permissive. The constructor itself lives outside the given sources. -/
def ParamSignature.new (ty : ConcreteTypeId) : ParamSignature :=
  { ty := ty, allow_deferred := true, allow_add_const := true, allow_const := true }

/-- Signature of one branch of a libfunc: its outputs and its ap-change. -/
structure BranchSignature where
  vars : List OutputVarInfo
  ap_change : SierraApChange
deriving DecidableEq, Repr

/-- Full concrete signature of a libfunc. -/
structure LibFuncSignature where
  param_signatures : List ParamSignature
  branch_signatures : List BranchSignature
  fallthrough : Option Nat
deriving DecidableEq, Repr

/-- Modelled from the spec: `LibFuncSignature::new_non_branch_ex` (outside the
given sources) packages parameters and outputs into a single-branch signature
("Single branch" per the spec), with that branch as the fallthrough. -/
def LibFuncSignature.new_non_branch_ex (param_signatures : List ParamSignature)
    (output_info : List OutputVarInfo) (ap_change : SierraApChange) : LibFuncSignature :=
  { param_signatures := param_signatures
    branch_signatures := [{ vars := output_info, ap_change := ap_change }]
    fallthrough := some 0 }

/-- The signature specialization context: resolves a generic type id plus
generic arguments to a concrete type id, or fails. -/
structure SignatureSpecializationContext where
  get_concrete_type : GenericTypeId → List GenericArg → Except SpecializationError ConcreteTypeId

/-- Generic id of the system-call channel type (declared in a sibling module
of the sources). -/
def SystemType.id : GenericTypeId := "System"

/-- Generic id of the gas builtin type (declared in a sibling module). -/
def GasBuiltinType.id : GenericTypeId := "GasBuiltin"

/-- Generic id of the field-element type (declared in a sibling module). -/
def FeltType.id : GenericTypeId := "felt"

/-- Generic id of the StarkNet storage-address type (`storage.rs`). -/
def StorageAddressType.id : GenericTypeId := "StorageAddress"

/-- Concrete type descriptor: identity plus storability flags and size. -/
structure TypeInfo where
  storable : Bool
  droppable : Bool
  duplicatable : Bool
  size : Nat
deriving DecidableEq, Repr

/-- `StorageAddressType::specialize` (`storage.rs`): a plain scalar of size 1. -/
def StorageAddressType.specialize : TypeInfo :=
  { storable := true, droppable := true, duplicatable := true, size := 1 }

/-- `StorageReadLibFunc::specialize_signature` (`storage.rs` lines 52-84). -/
def StorageReadLibFunc.specialize_signature (context : SignatureSpecializationContext) :
    Except SpecializationError LibFuncSignature := do
  let system_ty ← context.get_concrete_type SystemType.id []
  let addr_ty ← context.get_concrete_type StorageAddressType.id []
  let felt_ty ← context.get_concrete_type FeltType.id []
  pure (LibFuncSignature.new_non_branch_ex
    [ { ty := system_ty
        allow_deferred := false
        allow_add_const := true
        allow_const := false },
      ParamSignature.new addr_ty ]
    [ { ty := system_ty
        ref_info := .Deferred (.AddConst 0) },
      { ty := felt_ty
        ref_info := .NewTempVar (some 0) } ]
    (.Known false))

/-- `StorageWriteLibFunc::specialize_signature` (`storage.rs` lines 92-160). -/
def StorageWriteLibFunc.specialize_signature (context : SignatureSpecializationContext) :
    Except SpecializationError LibFuncSignature := do
  let gas_builtin_ty ← context.get_concrete_type GasBuiltinType.id []
  let system_ty ← context.get_concrete_type SystemType.id []
  let addr_ty ← context.get_concrete_type StorageAddressType.id []
  let felt_ty ← context.get_concrete_type FeltType.id []
  pure
    { param_signatures := [
        ParamSignature.new gas_builtin_ty,
        { ty := system_ty
          allow_deferred := false
          allow_add_const := true
          allow_const := false },
        ParamSignature.new addr_ty,
        ParamSignature.new felt_ty ]
      branch_signatures := [
        { vars := [
            { ty := gas_builtin_ty
              ref_info := .Deferred .Generic },
            { ty := system_ty
              ref_info := .Deferred (.AddConst 1) } ]
          ap_change := .Known false },
        { vars := [
            { ty := gas_builtin_ty
              ref_info := .Deferred .Generic },
            { ty := system_ty
              ref_info := .Deferred (.AddConst 1) },
            { ty := felt_ty
              ref_info := .NewTempVar (some 0) } ]
          ap_change := .Known false } ]
      fallthrough := some 0 }

end Sierra

namespace Casm

/-- Cairo registers an operand cell may be relative to. -/
inductive Register where
  | AP
  | FP
deriving DecidableEq, Repr

/-- A register-relative memory cell. -/
structure CellRef where
  register : Register
  offset : Int
deriving DecidableEq, Repr

/-- A dereferenced cell or an immediate, as the right operand of a binary
operation. -/
inductive DerefOrImmediate where
  | Deref (c : CellRef)
  | Immediate (i : Int)
deriving DecidableEq, Repr

/-- Binary operations available in a result operand. -/
inductive Operation where
  | Add
  | Mul
deriving DecidableEq, Repr

/-- A CASM result operand. -/
inductive ResOperand where
  | Deref (c : CellRef)
  | DoubleDeref (c : CellRef) (off : Int)
  | Immediate (i : Int)
  | BinOp (op : Operation) (a : CellRef) (b : DerefOrImmediate)
deriving DecidableEq, Repr

/-- One machine word of a reference expression: where that word lives. -/
inductive CellExpression where
  | Deref (c : CellRef)
  | DoubleDeref (c : CellRef) (off : Int)
  | Immediate (i : Int)
  | BinOp (op : Operation) (a : CellRef) (b : DerefOrImmediate)
deriving DecidableEq, Repr

/-- `CellExpression::from_res_operand`: a result operand re-read as a cell
expression. -/
def CellExpression.from_res_operand : ResOperand → CellExpression
  | .Deref c => .Deref c
  | .DoubleDeref c off => .DoubleDeref c off
  | .Immediate i => .Immediate i
  | .BinOp op a b => .BinOp op a b

/-- A reference expression: one cell expression per machine word of the
value. -/
structure ReferenceExpression where
  cells : List CellExpression
deriving DecidableEq, Repr

/-- `ReferenceExpression::from_cell`: a single-word reference expression. -/
def ReferenceExpression.from_cell (cell : CellExpression) : ReferenceExpression :=
  { cells := [cell] }

/-- Errors raised while compiling a single libfunc invocation. -/
inductive InvocationError where
  | UnexpectedNumberOfCells
  | InvalidReferenceExpressionForArgument
  | InvalidGenericArg
  | WrongNumberOfArguments (expected : Nat) (actual : Nat)
deriving DecidableEq, Repr

/-- Modelled from the spec: `ReferenceExpression::try_unpack_single` (outside
the given sources) succeeds only for single-word values and fails with an
"unexpected number of cells" error otherwise. -/
def ReferenceExpression.try_unpack_single (expr : ReferenceExpression) :
    Except InvocationError CellExpression :=
  match expr.cells with
  | [cell] => .ok cell
  | _ => .error .UnexpectedNumberOfCells

/-- Modelled from the spec: `CellExpression::to_deref` (outside the given
sources) narrows a cell expression to a register-relative cell, failing with
"invalid reference expression for argument" on any other shape. -/
def CellExpression.to_deref : CellExpression → Except InvocationError CellRef
  | .Deref c => .ok c
  | _ => .error .InvalidReferenceExpressionForArgument

/-- Modelled from the spec: `CellExpression::to_buffer` (outside the given
sources) narrows a cell expression to an operand usable as a sequential
buffer cursor with the requested slack, failing with "invalid reference
expression for argument" when the shape disagrees. -/
def CellExpression.to_buffer (slack : Int) : CellExpression → Except InvocationError ResOperand
  | .Deref c => .ok (.Deref c)
  | .BinOp .Add a (.Immediate i) =>
      if i + slack ≤ 32767 then .ok (.BinOp .Add a (.Immediate i)) else
        .error .InvalidReferenceExpressionForArgument
  | _ => .error .InvalidReferenceExpressionForArgument

/-- An array view over a reference expression: start and end cursors plus the
pending (not yet materialized) advancement past the end. -/
structure ArrayView where
  start : CellRef
  «end» : CellRef
  end_offset : Nat
deriving DecidableEq, Repr

/-- Modelled from the spec: `ArrayView::try_get_view` (outside the given
sources) reconstructs the start/end cursors from a raw two-word reference
expression of array type, recording any pending offset on the end cursor, and
fails when the expression's shape is inconsistent with an array. -/
def ArrayView.try_get_view (expr : ReferenceExpression) : Except Unit ArrayView :=
  match expr.cells with
  | [.Deref s, .Deref e] => .ok { start := s, «end» := e, end_offset := 0 }
  | [.Deref s, .BinOp .Add e (.Immediate i)] =>
      if 0 < i then .ok { start := s, «end» := e, end_offset := i.toNat } else .error ()
  | _ => .error ()

/-- Instructions emitted by the instruction builder, one constructor per
operation kind of the builder described in the spec. -/
inductive Instr where
  | AssertEq (dst : ResOperand) (src : ResOperand)
  | AssertBufWrite (buf : ResOperand) (src : ResOperand)
  | SystemCallHint (system : ResOperand)
  | JumpNotZero (label : String) (cond : ResOperand)
deriving DecidableEq, Repr

/-- A snapshot of the builder's state at an exit path: the variable bindings
and the accumulated ap-change. -/
structure BuilderSnapshot where
  vars : List ResOperand
  ap_change : Nat
deriving DecidableEq, Repr

/-- Modelled from the spec: the `CasmBuilder` session state (outside the given
sources) — variable bindings, accumulated ap-change, emitted instructions,
emitted jumps awaiting resolution, locally defined labels, and the state
captured for each label jumped to. -/
structure CasmBuilder where
  vars : List ResOperand
  ap_change : Nat
  instructions : List Instr
  jumps : List (Nat × String)
  defined_labels : List String
  label_states : List (String × BuilderSnapshot)
deriving DecidableEq, Repr

/-- The fresh builder session (`CasmBuilder::default()`). -/
def CasmBuilder.default : CasmBuilder :=
  { vars := [], ap_change := 0, instructions := [], jumps := [],
    defined_labels := [], label_states := [] }

/-- The operand currently bound to a symbolic variable. -/
def CasmBuilder.get_var (st : CasmBuilder) (v : Nat) : ResOperand :=
  st.vars.getD v (.Immediate 0)

/-- `add_var`: bind a fresh symbolic variable to an operand. -/
def CasmBuilder.add_var (st : CasmBuilder) (op : ResOperand) : Nat × CasmBuilder :=
  (st.vars.length, { st with vars := st.vars ++ [op] })

/-- `tempvar x;`: allocate a fresh temporary at the next ap slot, advancing
the tracked ap-change by one. -/
def CasmBuilder.alloc_tempvar (st : CasmBuilder) : Nat × CasmBuilder :=
  (st.vars.length,
   { st with
      vars := st.vars ++ [.Deref { register := .AP, offset := (st.ap_change : Int) }]
      ap_change := st.ap_change + 1 })

/-- `assert x = y;`: emit an equality assertion between two bound variables. -/
def CasmBuilder.assert_var_eq (st : CasmBuilder) (dst src : Nat) : CasmBuilder :=
  { st with instructions := st.instructions ++ [.AssertEq (st.get_var dst) (st.get_var src)] }

/-- `let y = x;`: bind a fresh variable to the operand currently bound to
another variable. -/
def CasmBuilder.let_var (st : CasmBuilder) (src : Nat) : Nat × CasmBuilder :=
  st.add_var (st.get_var src)

/-- Advance a buffer cursor operand one word past its current position. -/
def advance_buffer : ResOperand → ResOperand
  | .Deref c => .BinOp .Add c (.Immediate 1)
  | .BinOp .Add c (.Immediate i) => .BinOp .Add c (.Immediate (i + 1))
  | op => op

/-- The cell a buffer cursor operand currently points through. -/
def buffer_target : ResOperand → ResOperand
  | .Deref c => .DoubleDeref c 0
  | .BinOp .Add c (.Immediate i) => .DoubleDeref c i
  | _ => .Immediate 0

/-- `assert *(buf++) = v;`: emit a cursor-advancing buffer write. -/
def CasmBuilder.buffer_write (st : CasmBuilder) (buf src : Nat) : CasmBuilder :=
  { st with
      instructions := st.instructions ++ [.AssertBufWrite (st.get_var buf) (st.get_var src)]
      vars := st.vars.set buf (advance_buffer (st.get_var buf)) }

/-- `let x = *(buf++);`: bind the dereferenced cursor cell and advance the
cursor; emits no instruction. -/
def CasmBuilder.buffer_read (st : CasmBuilder) (buf : Nat) : Nat × CasmBuilder :=
  (st.vars.length,
   { st with
      vars := (st.vars ++ [buffer_target (st.get_var buf)]).set buf
        (advance_buffer (st.get_var buf)) })

/-- `hint SystemCall ...;`: emit the side-effecting system-call marker. -/
def CasmBuilder.system_call_hint (st : CasmBuilder) (v : Nat) : CasmBuilder :=
  { st with instructions := st.instructions ++ [.SystemCallHint (st.get_var v)] }

/-- `jump L if x != 0;`: emit a conditional jump, capture the current state
for the label, and record the jump as awaiting resolution. -/
def CasmBuilder.jump_nonzero (st : CasmBuilder) (label : String) (cond : Nat) : CasmBuilder :=
  { st with
      instructions := st.instructions ++ [.JumpNotZero label (st.get_var cond)]
      jumps := st.jumps ++ [(st.instructions.length, label)]
      label_states := st.label_states ++
        [(label, { vars := st.vars, ap_change := st.ap_change })] }

/-- The frozen result of a builder session. -/
structure CasmBuildResult where
  instructions : List Instr
  awaiting_relocations : List Nat
  label_state : List (String × BuilderSnapshot)
  fallthrough_state : BuilderSnapshot
deriving DecidableEq, Repr

/-- `build()`: freeze the session; the jumps whose label was never locally
defined remain as awaiting relocations. -/
def CasmBuilder.build (st : CasmBuilder) : CasmBuildResult :=
  { instructions := st.instructions
    awaiting_relocations :=
      (st.jumps.filter (fun j => ¬ st.defined_labels.contains j.2)).map Prod.fst
    label_state := st.label_states
    fallthrough_state := { vars := st.vars, ap_change := st.ap_change } }

/-- Shift an ap-relative cell back by a completed ap-change. -/
def adjust_cell (c : CellRef) (d : Nat) : CellRef :=
  match c.register with
  | .AP => { c with offset := c.offset - (d : Int) }
  | .FP => c

/-- Shift the ap-relative parts of an operand back by a completed ap-change. -/
def adjust_operand (d : Nat) : ResOperand → ResOperand
  | .Deref c => .Deref (adjust_cell c d)
  | .DoubleDeref c off => .DoubleDeref (adjust_cell c d) off
  | .Immediate i => .Immediate i
  | .BinOp op a b => .BinOp op (adjust_cell a d)
      (match b with
       | .Deref c => .Deref (adjust_cell c d)
       | .Immediate i => .Immediate i)

/-- `get_adjusted`: re-express a variable's operand relative to this state's
final allocation offset. -/
def BuilderSnapshot.get_adjusted (s : BuilderSnapshot) (v : Nat) : ResOperand :=
  adjust_operand s.ap_change (s.vars.getD v (.Immediate 0))

/-- `get_adjusted_as_cell_ref`: like `get_adjusted`, for a variable known to
be bound to a plain cell. -/
def BuilderSnapshot.get_adjusted_as_cell_ref (s : BuilderSnapshot) (v : Nat) : CellRef :=
  match s.get_adjusted v with
  | .Deref c => c
  | _ => { register := .AP, offset := 0 }

/-- Index of a statement in the Sierra program. -/
abbrev StatementIdx := Nat

/-- A live IR value flowing into an invocation: its current location
expression and its type. -/
structure ReferenceValue where
  expression : ReferenceExpression
  ty : Sierra.ConcreteTypeId
deriving DecidableEq, Repr

/-- The context handed to an invocation compiler: the invocation's input
references, plus the statement id of the non-fallthrough successor branch. -/
structure CompiledInvocationBuilder where
  refs : List ReferenceValue
  non_fallthrough_target : StatementIdx
deriving DecidableEq, Repr

/-- A deferred patch of an emitted jump's target. -/
inductive Relocation where
  | RelativeStatementId (idx : StatementIdx)
deriving DecidableEq, Repr

/-- A relocation paired with the instruction it patches. -/
structure RelocationEntry where
  instruction_idx : Nat
  relocation : Relocation
deriving DecidableEq, Repr

/-- The result of compiling one invocation: instructions, relocations, and
the per-branch output reference expressions. -/
structure CompiledInvocation where
  instructions : List Instr
  relocations : List RelocationEntry
  results : List (List ReferenceExpression)
deriving DecidableEq, Repr

/-- Modelled from the spec: `get_non_fallthrough_statement_id` (outside the
given sources) returns the statement id of the non-fallthrough (failure)
successor branch of the invocation being compiled. -/
def get_non_fallthrough_statement_id (builder : CompiledInvocationBuilder) : StatementIdx :=
  builder.non_fallthrough_target

/-- `CompiledInvocationBuilder::build`: package instructions, relocations and
per-branch outputs into a compiled invocation. -/
def CompiledInvocationBuilder.build (_builder : CompiledInvocationBuilder)
    (instructions : List Instr) (relocations : List RelocationEntry)
    (output_expressions : List (List ReferenceExpression)) : CompiledInvocation :=
  { instructions := instructions, relocations := relocations, results := output_expressions }

/-- Modelled from the spec: `build_only_reference_changes` (outside the given
sources) is the pure reference-rewrite — no instructions, no relocations,
only the single branch's output expressions. -/
def CompiledInvocationBuilder.build_only_reference_changes
    (builder : CompiledInvocationBuilder)
    (output_expressions : List ReferenceExpression) : CompiledInvocation :=
  builder.build [] [] [output_expressions]

/-- The per-branch ap-change classification supplied by the external
`core_libfunc_ap_change` oracle. -/
inductive ApChange where
  | Known (n : Nat)
  | Unknown
deriving DecidableEq, Repr

/-- Outcome of an invocation compiler that may also halt on an internal
consistency violation (a Rust panic), distinct from a recoverable error. -/
inductive BuildOutcome (α : Type) where
  | ok (val : α)
  | err (e : InvocationError)
  | fatal (msg : String)
deriving DecidableEq, Repr

/-- `BigInt::from_bytes_le(Sign::Plus, bytes)`: the non-negative integer with
the given little-endian base-256 digits. -/
def from_bytes_le (bs : List Nat) : Int :=
  Int.ofNat (bs.foldr (fun b acc => b + 256 * acc) 0)

/-- The ASCII bytes of the string "call_contract". -/
def call_contract_bytes : List Nat := "call_contract".data.map Char.toNat

/-- The selector immediate of the call-contract system call
(`interoperability.rs` line 26). -/
def call_contract_selector : Int := from_bytes_le call_contract_bytes

/-- The argument-unpacking of `build_call_contract`'s four input references
(`interoperability.rs` lines 29-48, the match arm's tuple). -/
def parse_call_contract_refs (expr_gas_builtin expr_system expr_address expr_arr :
    ReferenceExpression) :
    Except InvocationError (CellRef × ResOperand × CellRef × ArrayView) := do
  let gas_builtin ← (← expr_gas_builtin.try_unpack_single).to_deref
  let system ← (← expr_system.try_unpack_single).to_buffer 8
  let contract_address ← (← expr_address.try_unpack_single).to_deref
  match ArrayView.try_get_view expr_arr with
  | .error _ => throw .InvalidReferenceExpressionForArgument
  | .ok call_data => pure (gas_builtin, system, contract_address, call_data)

/-- The builder variables of the call-contract session that feed the output
reference expressions. -/
structure CallContractVars where
  system : Nat
  updated_gas_builtin : Nat
  revert_reason : Nat
  res_start : Nat
  res_end : Nat
deriving DecidableEq, Repr

/-- The instruction-builder session of `build_call_contract`
(`interoperability.rs` lines 54-79), driven on already-validated operands. -/
def call_contract_session (system_op : ResOperand) (gas_builtin_cell contract_address_cell :
    CellRef) (call_data : ArrayView) : CasmBuilder × CallContractVars :=
  let casm_builder := CasmBuilder.default
  let (system, casm_builder) := casm_builder.add_var system_op
  let (selector_imm, casm_builder) := casm_builder.add_var (.Immediate call_contract_selector)
  let (gas_builtin, casm_builder) := casm_builder.add_var (.Deref gas_builtin_cell)
  let (contract_address, casm_builder) := casm_builder.add_var (.Deref contract_address_cell)
  let (call_data_start, casm_builder) := casm_builder.add_var (.Deref call_data.start)
  let (call_data_end, casm_builder) := casm_builder.add_var (.Deref call_data.«end»)
  let (selector, casm_builder) := casm_builder.alloc_tempvar
  let casm_builder := casm_builder.assert_var_eq selector selector_imm
  let (original_system, casm_builder) := casm_builder.let_var system
  let casm_builder := casm_builder.buffer_write system selector
  let casm_builder := casm_builder.buffer_write system gas_builtin
  let casm_builder := casm_builder.buffer_write system contract_address
  let casm_builder := casm_builder.buffer_write system call_data_start
  let casm_builder := casm_builder.buffer_write system call_data_end
  let casm_builder := casm_builder.system_call_hint original_system
  let (updated_gas_builtin, casm_builder) := casm_builder.buffer_read system
  let (revert_reason, casm_builder) := casm_builder.alloc_tempvar
  let casm_builder := casm_builder.buffer_write system revert_reason
  let (res_start, casm_builder) := casm_builder.buffer_read system
  let (res_end, casm_builder) := casm_builder.buffer_read system
  let casm_builder := casm_builder.jump_nonzero "Failure" revert_reason
  (casm_builder,
   { system := system, updated_gas_builtin := updated_gas_builtin,
     revert_reason := revert_reason, res_start := res_start, res_end := res_end })

/-- The per-branch output reference expressions of `build_call_contract`
(`interoperability.rs` lines 97-137): the success branch returns
(gas builtin, system, result array); the failure branch additionally returns
the revert reason before the result array. -/
def call_contract_outputs (result : CasmBuildResult) (failure_state : BuilderSnapshot)
    (v : CallContractVars) : List (List ReferenceExpression) :=
  [ [ ReferenceExpression.from_cell (.from_res_operand
        (result.fallthrough_state.get_adjusted v.updated_gas_builtin)),
      ReferenceExpression.from_cell (.from_res_operand
        (result.fallthrough_state.get_adjusted v.system)),
      { cells := [
          .from_res_operand (result.fallthrough_state.get_adjusted v.res_start),
          .from_res_operand (result.fallthrough_state.get_adjusted v.res_end) ] } ],
    [ ReferenceExpression.from_cell (.from_res_operand
        (failure_state.get_adjusted v.updated_gas_builtin)),
      ReferenceExpression.from_cell (.from_res_operand
        (failure_state.get_adjusted v.system)),
      ReferenceExpression.from_cell (.Deref
        (failure_state.get_adjusted_as_cell_ref v.revert_reason)),
      { cells := [
          .from_res_operand (failure_state.get_adjusted v.res_start),
          .from_res_operand (failure_state.get_adjusted v.res_end) ] } ] ]

/-- `build_call_contract` (`interoperability.rs` lines 21-140), with the
external `core_libfunc_ap_change` oracle's answer passed as a parameter. -/
def build_call_contract (oracle : List ApChange) (builder : CompiledInvocationBuilder) :
    BuildOutcome CompiledInvocation :=
  match builder.refs with
  | [rv_gas, rv_system, rv_address, rv_arr] =>
    match parse_call_contract_refs rv_gas.expression rv_system.expression
        rv_address.expression rv_arr.expression with
    | .error e => .err e
    | .ok (gas_builtin, system, contract_address, call_data) =>
      if call_data.end_offset ≠ 0 then
        .err .InvalidReferenceExpressionForArgument
      else
        match ((call_contract_session system gas_builtin contract_address
            call_data).1.build).label_state.lookup "Failure" with
        | none => .fatal "Failure label state missing"
        | some failure_state =>
          if oracle ≠ [.Known ((call_contract_session system gas_builtin contract_address
                call_data).1.build).fallthrough_state.ap_change,
              .Known failure_state.ap_change] then
            .fatal "ap change oracle mismatch"
          else
            match ((call_contract_session system gas_builtin contract_address
                call_data).1.build).awaiting_relocations with
            | [relocation_index] =>
              .ok (builder.build
                ((call_contract_session system gas_builtin contract_address
                  call_data).1.build).instructions
                [{ instruction_idx := relocation_index
                   relocation :=
                     .RelativeStatementId (get_non_fallthrough_statement_id builder) }]
                (call_contract_outputs
                  ((call_contract_session system gas_builtin contract_address
                    call_data).1.build)
                  failure_state
                  ((call_contract_session system gas_builtin contract_address
                    call_data).2)))
            | _ => .fatal "Malformed casm builder usage."
  | refs => .err (.WrongNumberOfArguments 2 refs.length)

/-- A sample gas-builtin input reference: a single dereferenced cell. -/
def sample_gas_ref : ReferenceValue :=
  { expression := .from_cell (.Deref { register := .FP, offset := 0 }), ty := 10 }

/-- A sample system-channel input reference: a single dereferenced cell. -/
def sample_system_ref : ReferenceValue :=
  { expression := .from_cell (.Deref { register := .FP, offset := 1 }), ty := 11 }

/-- A sample contract-address input reference: a single dereferenced cell. -/
def sample_address_ref : ReferenceValue :=
  { expression := .from_cell (.Deref { register := .FP, offset := 2 }), ty := 12 }

/-- A sample call-data array input reference with a clean end cursor. -/
def sample_array_ref : ReferenceValue :=
  { expression := { cells := [.Deref { register := .FP, offset := 3 },
      .Deref { register := .FP, offset := 4 }] }, ty := 13 }

/-- A sample call-data array input reference whose end cursor carries a
pending offset of 2. -/
def sample_array_ref_pending : ReferenceValue :=
  { expression := { cells := [.Deref { register := .FP, offset := 3 },
      .BinOp .Add { register := .FP, offset := 4 } (.Immediate 2)] }, ty := 13 }

/-- A sample well-formed call-contract invocation context. -/
def sample_builder : CompiledInvocationBuilder :=
  { refs := [sample_gas_ref, sample_system_ref, sample_address_ref, sample_array_ref],
    non_fallthrough_target := 7 }

/-- A sample invocation context with only three input references. -/
def sample_builder_three : CompiledInvocationBuilder :=
  { refs := [sample_gas_ref, sample_system_ref, sample_address_ref],
    non_fallthrough_target := 7 }

/-- A sample invocation context with five input references. -/
def sample_builder_five : CompiledInvocationBuilder :=
  { refs := [sample_gas_ref, sample_system_ref, sample_address_ref, sample_array_ref,
      sample_array_ref],
    non_fallthrough_target := 7 }

/-- A sample invocation context whose call-data argument carries a pending
end offset. -/
def sample_builder_pending : CompiledInvocationBuilder :=
  { refs := [sample_gas_ref, sample_system_ref, sample_address_ref, sample_array_ref_pending],
    non_fallthrough_target := 7 }

/-- The const-parametrized concrete libfunc handed to
`build_contract_address_const`: its validated constant. -/
structure SignatureAndConstConcreteLibFunc where
  c : Int
deriving DecidableEq, Repr

/-- `build_contract_address_const` (`interoperability.rs` lines 143-155). -/
def build_contract_address_const (builder : CompiledInvocationBuilder)
    (libfunc : SignatureAndConstConcreteLibFunc) : Except InvocationError CompiledInvocation :=
  let addr_bound : Int := 2 ^ 251
  if addr_bound ≤ libfunc.c then
    .error .InvalidGenericArg
  else
    .ok (builder.build_only_reference_changes
      [ReferenceExpression.from_cell (.Immediate libfunc.c)])

end Casm

/-- A sample specialization context resolving the four queried generic type
ids to distinct concrete type ids. -/
def sample_ctx : Sierra.SignatureSpecializationContext :=
  { get_concrete_type := fun id _args =>
      if id = Sierra.GasBuiltinType.id then .ok 0
      else if id = Sierra.SystemType.id then .ok 1
      else if id = Sierra.StorageAddressType.id then .ok 2
      else if id = Sierra.FeltType.id then .ok 3
      else .error .UnsupportedId }

/-- The observable shape of a libfunc signature: parameter types, per-branch
output (type, reference-kind) pairs, per-branch ap-change, and the
fallthrough index. -/
def signatureShape (sig : Sierra.LibFuncSignature) :
    List Sierra.ConcreteTypeId ×
    List (List (Sierra.ConcreteTypeId × Sierra.OutputVarReferenceInfo)) ×
    List Sierra.SierraApChange × Option Nat :=
  (sig.param_signatures.map (fun p => p.ty),
   sig.branch_signatures.map (fun br => br.vars.map (fun v => (v.ty, v.ref_info))),
   sig.branch_signatures.map (fun br => br.ap_change),
   sig.fallthrough)

/-- Whether an instruction is a cursor-advancing buffer write. -/
def Casm.Instr.is_buf_write : Casm.Instr → Bool
  | .AssertBufWrite _ _ => true
  | _ => false

/-- The source operand written by a buffer-write instruction. -/
def Casm.Instr.write_src : Casm.Instr → Option Casm.ResOperand
  | .AssertBufWrite _ src => some src
  | _ => none

/-- The compiled invocation produced for the sample well-formed call-contract
invocation. -/
def sample_call_contract_inv : Casm.CompiledInvocation :=
  match Casm.build_call_contract [.Known 2, .Known 2] Casm.sample_builder with
  | .ok inv => inv
  | _ => { instructions := [], relocations := [], results := [] }

/-- The array view parsed from the sample call-data reference. -/
def sample_call_data_view : Casm.ArrayView :=
  { start := { register := .FP, offset := 3 }, «end» := { register := .FP, offset := 4 },
    end_offset := 0 }

/-- Whether a build outcome is a successful compilation. -/
def Casm.BuildOutcome.isOk {α : Type} : Casm.BuildOutcome α → Bool
  | .ok _ => true
  | _ => false

/-- The builder snapshot captured for the Failure label in the sample
call-contract session. -/
def sample_failure_state : Casm.BuilderSnapshot :=
  ((((Casm.call_contract_session (.Deref { register := .FP, offset := 1 })
        { register := .FP, offset := 0 } { register := .FP, offset := 2 }
        sample_call_data_view).1.build).label_state.lookup "Failure").getD
    { vars := [], ap_change := 0 })

open Casm in
/-- C3: `build_contract_address_const` accepts every constant integer in
[0, 2^251) — in particular 2^251 - 1 — and fails with `InvalidGenericArg` for
every constant greater than or equal to 2^251 — in particular 2^251. -/
theorem contract_address_const_range (builder : CompiledInvocationBuilder) (c : Int) :
    (0 ≤ c → c < 2 ^ 251 →
      build_contract_address_const builder { c := c }
        = .ok (builder.build_only_reference_changes
            [ReferenceExpression.from_cell (.Immediate c)])) ∧
    (2 ^ 251 ≤ c →
      build_contract_address_const builder { c := c } = .error .InvalidGenericArg) := by
  constructor
  · intro _ hlt
    simp only [build_contract_address_const]
    rw [if_neg (not_le.mpr hlt)]
  · intro hge
    simp only [build_contract_address_const]
    rw [if_pos hge]

open Casm in
/-- Witness for C3 at the test literals 2^251 - 1 and 2^251. -/
theorem contract_address_const_range_witness :
    build_contract_address_const sample_builder { c := 2 ^ 251 - 1 }
        = .ok (sample_builder.build_only_reference_changes
            [ReferenceExpression.from_cell (.Immediate (2 ^ 251 - 1))]) ∧
    build_contract_address_const sample_builder { c := 2 ^ 251 }
        = .error .InvalidGenericArg :=
  ⟨(contract_address_const_range sample_builder (2 ^ 251 - 1)).1 (by norm_num) (by norm_num),
   (contract_address_const_range sample_builder (2 ^ 251)).2 le_rfl⟩

open Casm in
/-- C8: for every in-range constant, `build_contract_address_const` emits no
instructions and no relocations and returns exactly one output reference
expression, a single Immediate cell holding the constant. -/
theorem contract_address_const_pure (builder : CompiledInvocationBuilder) (c : Int)
    (h : c < 2 ^ 251) :
    build_contract_address_const builder { c := c }
      = .ok { instructions := [], relocations := [],
              results := [[{ cells := [.Immediate c] }]] } := by
  simp only [build_contract_address_const]
  rw [if_neg (not_le.mpr h)]
  rfl

open Casm in
/-- Witness for C8 at the constant 0. -/
theorem contract_address_const_pure_witness :
    build_contract_address_const sample_builder { c := 0 }
      = .ok { instructions := [], relocations := [],
              results := [[{ cells := [.Immediate 0] }]] } :=
  contract_address_const_pure sample_builder 0 (by norm_num)

open Casm in
/-- C9: `build_contract_address_const` checks only the upper bound: every
negative constant is accepted and returned as an Immediate reference
expression rather than rejected with `InvalidGenericArg`. -/
theorem contract_address_const_negative (builder : CompiledInvocationBuilder) (c : Int)
    (h : c < 0) :
    build_contract_address_const builder { c := c }
      = .ok { instructions := [], relocations := [],
              results := [[{ cells := [.Immediate c] }]] } := by
  simp only [build_contract_address_const]
  rw [if_neg (not_le.mpr (lt_trans h (by norm_num)))]
  rfl

open Casm in
/-- Witness for C9 at the constant -1. -/
theorem contract_address_const_negative_witness :
    build_contract_address_const sample_builder { c := -1 }
      = .ok { instructions := [], relocations := [],
              results := [[{ cells := [.Immediate (-1)] }]] } :=
  contract_address_const_negative sample_builder (-1) (by norm_num)

open Casm in
/-- C2 (defect witness): `build_call_contract` does reject 3 and 5 input
references with `WrongNumberOfArguments`, but the reported expected count is
the hard-coded 2, not the 4 arguments the function's own pattern requires. -/
theorem call_contract_wrong_arg_count_reports_two :
    build_call_contract [.Known 2, .Known 2] sample_builder_three
      = .err (.WrongNumberOfArguments 2 3) ∧
    build_call_contract [.Known 2, .Known 2] sample_builder_five
      = .err (.WrongNumberOfArguments 2 5) ∧
    (2 : Nat) ≠ 4 := by
  refine ⟨rfl, rfl, by decide⟩

/-- C1 (counterexample): at a concrete specialization context, the channel
output of both storage-write branches has reference kind
Deferred(AddConst(param 1)), which is not the deferred-generic kind the claim
asserts for it. -/
theorem storage_write_channel_kind_counterexample :
    (Sierra.StorageWriteLibFunc.specialize_signature sample_ctx).map
        (fun sig => sig.branch_signatures.map (fun br => br.vars.map (fun v => v.ref_info)))
      = .ok [[.Deferred .Generic, .Deferred (.AddConst 1)],
             [.Deferred .Generic, .Deferred (.AddConst 1), .NewTempVar (some 0)]] ∧
    (Sierra.OutputVarReferenceInfo.Deferred (.AddConst 1))
      ≠ .Deferred .Generic := by
  refine ⟨by rfl, by decide⟩

/-- C1 (amended): the storage-write signature has exactly four parameters
(gas counter, channel, address, value) and exactly two branches; both
branches return the updated gas counter with deferred-generic kind and the
updated channel with deferred-add-const (parameter 1) kind; the failure
branch additionally returns a revert-reason felt as a newly allocated
temporary; both branches have ap-change Known(new_vars_only = false); and
the fallthrough branch index is 0 (success). -/
theorem storage_write_signature_spec (context : Sierra.SignatureSpecializationContext)
    (gas_ty system_ty addr_ty felt_ty : Sierra.ConcreteTypeId)
    (hg : context.get_concrete_type Sierra.GasBuiltinType.id [] = .ok gas_ty)
    (hs : context.get_concrete_type Sierra.SystemType.id [] = .ok system_ty)
    (ha : context.get_concrete_type Sierra.StorageAddressType.id [] = .ok addr_ty)
    (hf : context.get_concrete_type Sierra.FeltType.id [] = .ok felt_ty) :
    (Sierra.StorageWriteLibFunc.specialize_signature context).map signatureShape
      = .ok ([gas_ty, system_ty, addr_ty, felt_ty],
             [[(gas_ty, .Deferred .Generic), (system_ty, .Deferred (.AddConst 1))],
              [(gas_ty, .Deferred .Generic), (system_ty, .Deferred (.AddConst 1)),
               (felt_ty, .NewTempVar (some 0))]],
             [.Known false, .Known false],
             some 0) := by
  simp only [Sierra.StorageWriteLibFunc.specialize_signature, hg, hs, ha, hf, bind,
    Except.bind, pure, Except.pure, Except.map, signatureShape]
  rfl

/-- Witness for C1 (amended) at a concrete specialization context. -/
theorem storage_write_signature_spec_witness :
    (Sierra.StorageWriteLibFunc.specialize_signature sample_ctx).map signatureShape
      = .ok ([0, 1, 2, 3],
             [[(0, .Deferred .Generic), (1, .Deferred (.AddConst 1))],
              [(0, .Deferred .Generic), (1, .Deferred (.AddConst 1)),
               (3, .NewTempVar (some 0))]],
             [.Known false, .Known false],
             some 0) :=
  storage_write_signature_spec sample_ctx 0 1 2 3 (by rfl) (by rfl) (by rfl) (by rfl)

/-- C5: the storage-read signature has exactly two parameters — the channel
with flags (allow_deferred = false, allow_add_const = true,
allow_const = false) and an unrestricted storage address — and a single
branch with exactly two outputs: the channel with kind
Deferred(AddConst(param 0)) and a felt with kind NewTempVar, with ap-change
Known(new_vars_only = false). -/
theorem storage_read_signature_spec (context : Sierra.SignatureSpecializationContext)
    (system_ty addr_ty felt_ty : Sierra.ConcreteTypeId)
    (hs : context.get_concrete_type Sierra.SystemType.id [] = .ok system_ty)
    (ha : context.get_concrete_type Sierra.StorageAddressType.id [] = .ok addr_ty)
    (hf : context.get_concrete_type Sierra.FeltType.id [] = .ok felt_ty) :
    (Sierra.StorageReadLibFunc.specialize_signature context).map
        (fun sig => (sig.param_signatures, sig.branch_signatures))
      = .ok ([{ ty := system_ty, allow_deferred := false, allow_add_const := true,
                allow_const := false },
              { ty := addr_ty, allow_deferred := true, allow_add_const := true,
                allow_const := true }],
             [{ vars := [{ ty := system_ty, ref_info := .Deferred (.AddConst 0) },
                         { ty := felt_ty, ref_info := .NewTempVar (some 0) }],
                ap_change := .Known false }]) := by
  simp only [Sierra.StorageReadLibFunc.specialize_signature, hs, ha, hf, bind,
    Except.bind, pure, Except.pure, Except.map]
  rfl

/-- Witness for C5 at a concrete specialization context. -/
theorem storage_read_signature_spec_witness :
    (Sierra.StorageReadLibFunc.specialize_signature sample_ctx).map
        (fun sig => (sig.param_signatures, sig.branch_signatures))
      = .ok ([{ ty := 1, allow_deferred := false, allow_add_const := true,
                allow_const := false },
              { ty := 2, allow_deferred := true, allow_add_const := true,
                allow_const := true }],
             [{ vars := [{ ty := 1, ref_info := .Deferred (.AddConst 0) },
                         { ty := 3, ref_info := .NewTempVar (some 0) }],
                ap_change := .Known false }]) :=
  storage_read_signature_spec sample_ctx 1 2 3 (by rfl) (by rfl) (by rfl)

open Casm in
/-- Helper: everything a successful `build_call_contract` run implies — the
four input references, the parsed operands, the clean call-data cursor, the
Failure label state, the oracle agreement, the single awaiting relocation,
and the exact compiled invocation returned. -/
theorem build_call_contract_ok_elim {oracle : List ApChange}
    {b : CompiledInvocationBuilder} {inv : CompiledInvocation}
    (h : build_call_contract oracle b = .ok inv) :
    ∃ rv1 rv2 rv3 rv4 g s a cd failure_state relocation_index,
      b.refs = [rv1, rv2, rv3, rv4] ∧
      parse_call_contract_refs rv1.expression rv2.expression rv3.expression rv4.expression
        = .ok (g, s, a, cd) ∧
      cd.end_offset = 0 ∧
      ((call_contract_session s g a cd).1.build).label_state.lookup "Failure"
        = some failure_state ∧
      oracle = [.Known ((call_contract_session s g a cd).1.build).fallthrough_state.ap_change,
                .Known failure_state.ap_change] ∧
      ((call_contract_session s g a cd).1.build).awaiting_relocations = [relocation_index] ∧
      inv = b.build ((call_contract_session s g a cd).1.build).instructions
        [{ instruction_idx := relocation_index
           relocation := .RelativeStatementId (get_non_fallthrough_statement_id b) }]
        (call_contract_outputs ((call_contract_session s g a cd).1.build) failure_state
          ((call_contract_session s g a cd).2)) := by
  unfold build_call_contract at h
  split at h
  case h_2 => simp at h
  case h_1 rv1 rv2 rv3 rv4 href =>
    split at h
    case h_1 => simp at h
    case h_2 g s a cd hparse =>
      split at h
      case isTrue => simp at h
      case isFalse hoff =>
        split at h
        case h_1 => simp at h
        case h_2 failure_state hlk =>
          split at h
          case isTrue => simp at h
          case isFalse horacle =>
            split at h
            case h_2 => simp at h
            case h_1 relocation_index hrel =>
              refine ⟨rv1, rv2, rv3, rv4, g, s, a, cd, failure_state, relocation_index,
                href, hparse, not_not.mp hoff, hlk, not_not.mp horacle, hrel, ?_⟩
              cases h
              rfl

open Casm in
/-- C4: for four input references whose first three arguments are well-formed
and whose call-data argument parses as an array view with pending end offset
different from 0, `build_call_contract` returns the recoverable error
InvalidReferenceExpressionForArgument (not a halt). -/
theorem call_contract_pending_offset_error (oracle : List ApChange)
    (b : CompiledInvocationBuilder) (rv1 rv2 rv3 rv4 : ReferenceValue)
    (g : CellRef) (s : ResOperand) (a : CellRef) (cd : ArrayView)
    (href : b.refs = [rv1, rv2, rv3, rv4])
    (hparse : parse_call_contract_refs rv1.expression rv2.expression rv3.expression
      rv4.expression = .ok (g, s, a, cd))
    (hoff : cd.end_offset ≠ 0) :
    build_call_contract oracle b = .err .InvalidReferenceExpressionForArgument := by
  unfold build_call_contract
  simp only [href, hparse]
  rw [if_pos hoff]

open Casm in
/-- Witness for C4: the sample invocation whose call-data view has pending
end offset 2. -/
theorem call_contract_pending_offset_error_witness :
    build_call_contract [.Known 2, .Known 2] sample_builder_pending
      = .err .InvalidReferenceExpressionForArgument :=
  call_contract_pending_offset_error [.Known 2, .Known 2] sample_builder_pending
    sample_gas_ref sample_system_ref sample_address_ref sample_array_ref_pending
    { register := .FP, offset := 0 } (.Deref { register := .FP, offset := 1 })
    { register := .FP, offset := 2 }
    { start := { register := .FP, offset := 3 }, «end» := { register := .FP, offset := 4 },
      end_offset := 2 }
    rfl (by rfl) (by decide)

open Casm in
/-- C6: every successful `build_call_contract` compilation produces exactly
one relocation entry, a relative statement-id relocation targeting the
statement id of the non-fallthrough (failure) successor branch. -/
theorem call_contract_single_relocation (oracle : List ApChange)
    (b : CompiledInvocationBuilder) (inv : CompiledInvocation)
    (h : build_call_contract oracle b = .ok inv) :
    inv.relocations
      = [{ instruction_idx := 8,
           relocation := .RelativeStatementId (get_non_fallthrough_statement_id b) }] := by
  obtain ⟨rv1, rv2, rv3, rv4, g, s, a, cd, fl, ri, _, _, _, _, _, hrel, hinv⟩ :=
    build_call_contract_ok_elim h
  have h8 : ((call_contract_session s g a cd).1.build).awaiting_relocations = [8] := rfl
  rw [hrel] at h8
  have hri : ri = 8 := by injection h8
  subst hri
  subst hinv
  rfl

open Casm in
/-- Witness for C6 on the sample invocation. -/
theorem call_contract_single_relocation_witness :
    sample_call_contract_inv.relocations
      = [{ instruction_idx := 8,
           relocation := .RelativeStatementId
             (get_non_fallthrough_statement_id sample_builder) }] :=
  call_contract_single_relocation [.Known 2, .Known 2] sample_builder
    sample_call_contract_inv (by rfl)

open Casm in
/-- C7: under well-formed arguments, a successful `build_call_contract` run
implies the oracle's classification equals the builder's own computed
(fallthrough, Failure) ap-change states as Known values, and any
disagreement halts compilation with a fatal outcome rather than a
recoverable error. -/
theorem call_contract_ap_change_oracle_consistency (oracle : List ApChange)
    (b : CompiledInvocationBuilder) (rv1 rv2 rv3 rv4 : ReferenceValue)
    (g : CellRef) (s : ResOperand) (a : CellRef) (cd : ArrayView)
    (failure_state : BuilderSnapshot)
    (href : b.refs = [rv1, rv2, rv3, rv4])
    (hparse : parse_call_contract_refs rv1.expression rv2.expression rv3.expression
      rv4.expression = .ok (g, s, a, cd))
    (hoff : cd.end_offset = 0)
    (hlk : ((call_contract_session s g a cd).1.build).label_state.lookup "Failure"
      = some failure_state) :
    ((build_call_contract oracle b).isOk = true →
      oracle
        = [.Known ((call_contract_session s g a cd).1.build).fallthrough_state.ap_change,
           .Known failure_state.ap_change]) ∧
    (oracle
        ≠ [.Known ((call_contract_session s g a cd).1.build).fallthrough_state.ap_change,
           .Known failure_state.ap_change] →
      build_call_contract oracle b = .fatal "ap change oracle mismatch") := by
  have hfatal : oracle
      ≠ [.Known ((call_contract_session s g a cd).1.build).fallthrough_state.ap_change,
         .Known failure_state.ap_change] →
      build_call_contract oracle b = .fatal "ap change oracle mismatch" := by
    intro hne
    unfold build_call_contract
    simp only [href, hparse, hoff, hlk]
    simp [hne]
  refine ⟨?_, hfatal⟩
  intro hok
  by_contra hne
  rw [hfatal hne] at hok
  simp [BuildOutcome.isOk] at hok

open Casm in
/-- Witness for C7 on the sample invocation, where both computed ap-change
states are 2. -/
theorem call_contract_ap_change_oracle_consistency_witness :
    ((build_call_contract [.Known 2, .Known 2] sample_builder).isOk = true →
      [ApChange.Known 2, ApChange.Known 2] = [ApChange.Known 2, ApChange.Known 2]) ∧
    ([ApChange.Known 2, ApChange.Known 2] ≠ [ApChange.Known 2, ApChange.Known 2] →
      build_call_contract [.Known 2, .Known 2] sample_builder
        = .fatal "ap change oracle mismatch") :=
  call_contract_ap_change_oracle_consistency [.Known 2, .Known 2] sample_builder
    sample_gas_ref sample_system_ref sample_address_ref sample_array_ref
    { register := .FP, offset := 0 } (.Deref { register := .FP, offset := 1 })
    { register := .FP, offset := 2 } sample_call_data_view sample_failure_state
    rfl (by rfl) rfl (by rfl)

open Casm in
/-- C10: in every successful call-contract compilation, the first instruction
asserts a fresh temporary equal to the selector immediate, that temporary is
the first word written into the system channel, and the selector equals the
fixed non-negative integer read from the ASCII bytes of "call_contract" in
little-endian order. -/
theorem call_contract_selector_first_word (oracle : List ApChange)
    (b : CompiledInvocationBuilder) (inv : CompiledInvocation)
    (h : build_call_contract oracle b = .ok inv) :
    inv.instructions.head?
      = some (.AssertEq (.Deref { register := .AP, offset := 0 })
          (.Immediate call_contract_selector)) ∧
    ((inv.instructions.find? Instr.is_buf_write).bind Instr.write_src)
      = some (.Deref { register := .AP, offset := 0 }) ∧
    call_contract_selector = from_bytes_le call_contract_bytes ∧
    call_contract_selector = 0x74636172746e6f635f6c6c6163 ∧
    0 ≤ call_contract_selector := by
  obtain ⟨rv1, rv2, rv3, rv4, g, s, a, cd, fl, ri, _, _, _, _, _, _, hinv⟩ :=
    build_call_contract_ok_elim h
  subst hinv
  exact ⟨rfl, rfl, rfl, by decide, by decide⟩

open Casm in
/-- Witness for C10 on the sample invocation. -/
theorem call_contract_selector_first_word_witness :
    sample_call_contract_inv.instructions.head?
      = some (.AssertEq (.Deref { register := .AP, offset := 0 })
          (.Immediate call_contract_selector)) ∧
    ((sample_call_contract_inv.instructions.find? Instr.is_buf_write).bind Instr.write_src)
      = some (.Deref { register := .AP, offset := 0 }) ∧
    call_contract_selector = from_bytes_le call_contract_bytes ∧
    call_contract_selector = 0x74636172746e6f635f6c6c6163 ∧
    0 ≤ call_contract_selector :=
  call_contract_selector_first_word [.Known 2, .Known 2] sample_builder
    sample_call_contract_inv (by rfl)
